import Mathlib

/-
Verification development for the labwc-derived window-manager core "wmk":
server-side-decoration hit testing (src/ssd/ssd.c), interactive
move/resize geometry (src/interactive.c) and the window-switcher cycle
controller (src/osd.c), shallowly embedded in Lean 4.

C `int` arithmetic is embedded as `Int` (no overflow is reachable for the
quantities involved); C `double` coordinates are embedded as `Rat`
(all operations used by the code are exact on the rationals); C `/` on
`int` is embedded as `Int.tdiv` (truncation toward zero); conversion of a
`double` to an `int` is embedded as truncation toward zero on `Rat`.
-/

/- ------------------------------------------------------------------ -/
/- wlroots box and cursor helpers (external library semantics)        -/
/- ------------------------------------------------------------------ -/

/-- Embedding of `struct wlr_box` (wlroots): integer origin and size. -/
structure WlrBox where
  x : Int
  y : Int
  width : Int
  height : Int
deriving DecidableEq

/-- Embedding of the cursor position (`struct wlr_cursor`, fields x/y of
type double). -/
structure WlrCursor where
  x : Rat
  y : Rat
deriving DecidableEq

/-- Embedding of wlroots `wlr_box_empty`: a box is empty when its width or
height is not positive. -/
def wlr_box_empty (b : WlrBox) : Bool :=
  decide (b.width ≤ 0) || decide (b.height ≤ 0)

/-- Embedding of wlroots `wlr_box_contains_point` for a double point:
false on an empty box, otherwise half-open containment on each axis. -/
def wlr_box_contains_point (b : WlrBox) (x y : Rat) : Bool :=
  if wlr_box_empty b then
    false
  else
    decide ((b.x : Rat) ≤ x) && decide (x < ((b.x + b.width : Int) : Rat)) &&
    decide ((b.y : Rat) ≤ y) && decide (y < ((b.y + b.height : Int) : Rat))

/- ------------------------------------------------------------------ -/
/- Part taxonomy (ssd.h enum + ssd_part_contains from src/ssd/ssd.c)  -/
/- ------------------------------------------------------------------ -/

/-- Modelled from the spec: the closed `enum ssd_part_type` of ssd.h (the
header is not under src/). The spec lists the members (NONE, CLIENT, the
buttons CLOSE..OMNIPRESENT, PART_TITLEBAR, PART_TITLE, the four edges, the
four corners, FRAME, ALL, plus the virtual BUTTON group); the ordinal
order below is the one under which the documented range comparisons of
`ssd_part_contains` (buttons contiguous from CLOSE to OMNIPRESENT,
titlebar range CLOSE..TITLE, title range TITLEBAR..TITLE, frame range
CLOSE..CLIENT containing every corner and edge) express the documented
hierarchy. -/
inductive ssd_part_type where
  | LAB_SSD_NONE
  | LAB_SSD_BUTTON_CLOSE
  | LAB_SSD_BUTTON_MAXIMIZE
  | LAB_SSD_BUTTON_ICONIFY
  | LAB_SSD_BUTTON_WINDOW_MENU
  | LAB_SSD_BUTTON_WINDOW_ICON
  | LAB_SSD_BUTTON_SHADE
  | LAB_SSD_BUTTON_OMNIPRESENT
  | LAB_SSD_PART_TITLEBAR
  | LAB_SSD_PART_TITLE
  | LAB_SSD_PART_CORNER_TOP_LEFT
  | LAB_SSD_PART_CORNER_TOP_RIGHT
  | LAB_SSD_PART_CORNER_BOTTOM_RIGHT
  | LAB_SSD_PART_CORNER_BOTTOM_LEFT
  | LAB_SSD_PART_TOP
  | LAB_SSD_PART_RIGHT
  | LAB_SSD_PART_BOTTOM
  | LAB_SSD_PART_LEFT
  | LAB_SSD_CLIENT
  | LAB_SSD_FRAME
  | LAB_SSD_ALL
  | LAB_SSD_BUTTON
deriving DecidableEq, Fintype

open ssd_part_type

/-- Ordinal value of each enum member, mirroring the C enum's integer
value under the order above. -/
def ssd_part_type.toC : ssd_part_type → Nat
  | LAB_SSD_NONE => 0
  | LAB_SSD_BUTTON_CLOSE => 1
  | LAB_SSD_BUTTON_MAXIMIZE => 2
  | LAB_SSD_BUTTON_ICONIFY => 3
  | LAB_SSD_BUTTON_WINDOW_MENU => 4
  | LAB_SSD_BUTTON_WINDOW_ICON => 5
  | LAB_SSD_BUTTON_SHADE => 6
  | LAB_SSD_BUTTON_OMNIPRESENT => 7
  | LAB_SSD_PART_TITLEBAR => 8
  | LAB_SSD_PART_TITLE => 9
  | LAB_SSD_PART_CORNER_TOP_LEFT => 10
  | LAB_SSD_PART_CORNER_TOP_RIGHT => 11
  | LAB_SSD_PART_CORNER_BOTTOM_RIGHT => 12
  | LAB_SSD_PART_CORNER_BOTTOM_LEFT => 13
  | LAB_SSD_PART_TOP => 14
  | LAB_SSD_PART_RIGHT => 15
  | LAB_SSD_PART_BOTTOM => 16
  | LAB_SSD_PART_LEFT => 17
  | LAB_SSD_CLIENT => 18
  | LAB_SSD_FRAME => 19
  | LAB_SSD_ALL => 20
  | LAB_SSD_BUTTON => 21

/-- Embedding of `ssd_part_contains` (src/ssd/ssd.c lines 181-221): the
branch structure is kept one-to-one; C's integer comparisons on enum
values become comparisons on `toC`. -/
def ssd_part_contains (whole candidate : ssd_part_type) : Bool :=
  if whole = candidate || whole = LAB_SSD_ALL then
    true
  else if whole = LAB_SSD_BUTTON then
    decide (LAB_SSD_BUTTON_CLOSE.toC ≤ candidate.toC) &&
      decide (candidate.toC ≤ LAB_SSD_BUTTON_OMNIPRESENT.toC)
  else if whole = LAB_SSD_PART_TITLEBAR then
    decide (LAB_SSD_BUTTON_CLOSE.toC ≤ candidate.toC) &&
      decide (candidate.toC ≤ LAB_SSD_PART_TITLE.toC)
  else if whole = LAB_SSD_PART_TITLE then
    decide (LAB_SSD_PART_TITLEBAR.toC ≤ candidate.toC) &&
      decide (candidate.toC ≤ LAB_SSD_PART_TITLE.toC)
  else if whole = LAB_SSD_FRAME then
    decide (LAB_SSD_BUTTON_CLOSE.toC ≤ candidate.toC) &&
      decide (candidate.toC ≤ LAB_SSD_CLIENT.toC)
  else if whole = LAB_SSD_PART_TOP then
    candidate = LAB_SSD_PART_CORNER_TOP_LEFT ||
      candidate = LAB_SSD_PART_CORNER_TOP_RIGHT
  else if whole = LAB_SSD_PART_RIGHT then
    candidate = LAB_SSD_PART_CORNER_TOP_RIGHT ||
      candidate = LAB_SSD_PART_CORNER_BOTTOM_RIGHT
  else if whole = LAB_SSD_PART_BOTTOM then
    candidate = LAB_SSD_PART_CORNER_BOTTOM_RIGHT ||
      candidate = LAB_SSD_PART_CORNER_BOTTOM_LEFT
  else if whole = LAB_SSD_PART_LEFT then
    candidate = LAB_SSD_PART_CORNER_TOP_LEFT ||
      candidate = LAB_SSD_PART_CORNER_BOTTOM_LEFT
  else
    false

/-- True exactly when the part type is one of the seven button types. -/
def isButtonType (t : ssd_part_type) : Bool :=
  t = LAB_SSD_BUTTON_CLOSE || t = LAB_SSD_BUTTON_MAXIMIZE ||
  t = LAB_SSD_BUTTON_ICONIFY || t = LAB_SSD_BUTTON_WINDOW_MENU ||
  t = LAB_SSD_BUTTON_WINDOW_ICON || t = LAB_SSD_BUTTON_SHADE ||
  t = LAB_SSD_BUTTON_OMNIPRESENT

/-- True exactly when the part type is one of the four corner types. -/
def isCornerType (t : ssd_part_type) : Bool :=
  t = LAB_SSD_PART_CORNER_TOP_LEFT || t = LAB_SSD_PART_CORNER_TOP_RIGHT ||
  t = LAB_SSD_PART_CORNER_BOTTOM_RIGHT || t = LAB_SSD_PART_CORNER_BOTTOM_LEFT

/-- True exactly when the part type is one of the four straight edges. -/
def isEdgeType (t : ssd_part_type) : Bool :=
  t = LAB_SSD_PART_TOP || t = LAB_SSD_PART_RIGHT ||
  t = LAB_SSD_PART_BOTTOM || t = LAB_SSD_PART_LEFT

/-- The containment hierarchy exactly as the spec documents it, written
independently of the range-comparison implementation: reflexivity; ALL
contains everything; BUTTON contains the buttons; TITLEBAR contains the
buttons plus TITLE; TITLE contains TITLEBAR (asymmetric); FRAME contains
everything from the close button through the client area (buttons,
titlebar, title, corners, edges, client); each straight edge contains its
two adjacent corners. -/
def documentedHierarchy (whole candidate : ssd_part_type) : Bool :=
  whole = candidate ||
  whole = LAB_SSD_ALL ||
  (whole = LAB_SSD_BUTTON && isButtonType candidate) ||
  (whole = LAB_SSD_PART_TITLEBAR &&
    (isButtonType candidate || candidate = LAB_SSD_PART_TITLE)) ||
  (whole = LAB_SSD_PART_TITLE && candidate = LAB_SSD_PART_TITLEBAR) ||
  (whole = LAB_SSD_FRAME &&
    (isButtonType candidate || candidate = LAB_SSD_PART_TITLEBAR ||
     candidate = LAB_SSD_PART_TITLE || isCornerType candidate ||
     isEdgeType candidate || candidate = LAB_SSD_CLIENT)) ||
  (whole = LAB_SSD_PART_TOP &&
    (candidate = LAB_SSD_PART_CORNER_TOP_LEFT ||
     candidate = LAB_SSD_PART_CORNER_TOP_RIGHT)) ||
  (whole = LAB_SSD_PART_RIGHT &&
    (candidate = LAB_SSD_PART_CORNER_TOP_RIGHT ||
     candidate = LAB_SSD_PART_CORNER_BOTTOM_RIGHT)) ||
  (whole = LAB_SSD_PART_BOTTOM &&
    (candidate = LAB_SSD_PART_CORNER_BOTTOM_RIGHT ||
     candidate = LAB_SSD_PART_CORNER_BOTTOM_LEFT)) ||
  (whole = LAB_SSD_PART_LEFT &&
    (candidate = LAB_SSD_PART_CORNER_TOP_LEFT ||
     candidate = LAB_SSD_PART_CORNER_BOTTOM_LEFT))

example : ssd_part_contains LAB_SSD_PART_TITLE LAB_SSD_PART_TITLEBAR = true := by
  decide

example : ∀ w c, ssd_part_contains w c = documentedHierarchy w c := by decide

/- ------------------------------------------------------------------ -/
/- View / decoration model and the geometric point classifier         -/
/- ------------------------------------------------------------------ -/

/-- Embedding of the fields of `struct view` read by the classifier: its
current geometry box, the decoration-enabled flag, the fullscreen flag
and the titlebar-hidden flag. The field `effective_height` embeds the
external accessor `view_effective_height(view, use_pending=false)`,
which the spec treats as an abstract collaborator contract. -/
structure LabView where
  current : WlrBox
  effective_height : Int
  ssd_enabled : Bool
  fullscreen : Bool
  ssd_titlebar_hidden : Bool
deriving DecidableEq

/-- Embedding of the fields of `struct ssd` used by the node classifier:
the owning view (nullable, as the C guards for it), the identities of the
four matched region sub-trees (scene-tree pointers become numeric ids)
and each region's ordered part collection, a part being the pair of its
scene-node id and its stored part type.  The extents region is omitted
because its matching is commented out in the source. -/
structure Ssd where
  view : Option LabView
  titlebar_active_tree : Nat
  titlebar_inactive_tree : Nat
  border_active_tree : Nat
  border_inactive_tree : Nat
  titlebar_active_parts : List (Nat × ssd_part_type)
  titlebar_inactive_parts : List (Nat × ssd_part_type)
  border_active_parts : List (Nat × ssd_part_type)
  border_inactive_parts : List (Nat × ssd_part_type)
deriving DecidableEq

/-- The corner-zone height computed by `get_resizing_type`
(src/ssd/ssd.c line 51): `MAX(0, MIN(rc.resize_corner_range,
view_box.height / 2))` with C's truncating integer division. -/
def corner_height (resize_corner_range h : Int) : Int :=
  max 0 (min resize_corner_range (Int.tdiv h 2))

/-- The corner-zone width computed by `get_resizing_type`
(src/ssd/ssd.c line 52). -/
def corner_width (resize_corner_range w : Int) : Int :=
  max 0 (min resize_corner_range (Int.tdiv w 2))

/-- The effective bounding box computed by `get_resizing_type`
(src/ssd/ssd.c lines 36-44): the view's current box with its height
replaced by the effective height, extended upward by the theme's
titlebar height when the titlebar is not hidden. -/
def effective_box (theme_titlebar_height : Int) (view : LabView) : WlrBox :=
  let vb : WlrBox := { view.current with height := view.effective_height }
  if !view.ssd_titlebar_hidden then
    { vb with y := vb.y - theme_titlebar_height,
              height := vb.height + theme_titlebar_height }
  else
    vb

/-- Embedding of the static function `get_resizing_type`
(src/ssd/ssd.c lines 28-77).  The globals `rc.resize_corner_range` and
`view->server->theme->titlebar_height` are passed explicitly; the
nullable `ssd` and `cursor` pointers become options. -/
def get_resizing_type (resize_corner_range theme_titlebar_height : Int)
    (ssd : Option Ssd) (cursor : Option WlrCursor) : ssd_part_type :=
  match ssd.bind (·.view), cursor with
  | some view, some c =>
    if !view.ssd_enabled || view.fullscreen then
      LAB_SSD_NONE
    else
      let view_box := effective_box theme_titlebar_height view
      if wlr_box_contains_point view_box c.x c.y then
        LAB_SSD_NONE
      else
        let ch := corner_height resize_corner_range view_box.height
        let cw := corner_width resize_corner_range view_box.width
        let left : Bool := decide (c.x < ((view_box.x + cw : Int) : Rat))
        let right : Bool :=
          decide (((view_box.x + view_box.width - cw : Int) : Rat) < c.x)
        let top : Bool := decide (c.y < ((view_box.y + ch : Int) : Rat))
        let bottom : Bool :=
          decide (((view_box.y + view_box.height - ch : Int) : Rat) < c.y)
        if top && left then LAB_SSD_PART_CORNER_TOP_LEFT
        else if top && right then LAB_SSD_PART_CORNER_TOP_RIGHT
        else if bottom && left then LAB_SSD_PART_CORNER_BOTTOM_LEFT
        else if bottom && right then LAB_SSD_PART_CORNER_BOTTOM_RIGHT
        else if top then LAB_SSD_PART_TOP
        else if bottom then LAB_SSD_PART_BOTTOM
        else if left then LAB_SSD_PART_LEFT
        else if right then LAB_SSD_PART_RIGHT
        else LAB_SSD_NONE
  | _, _ => LAB_SSD_NONE

/-- Embedding of the scene-node data read by `ssd_get_part_type`: the
node's identity, whether it is a buffer node (`WLR_SCENE_NODE_BUFFER`),
whether a client surface can be obtained from it
(`lab_wlr_surface_from_node`), and the chain of its ancestor trees
(parent first), from which parent, grandparent and great-grandparent are
derived as in the C. -/
structure SceneNode where
  id : Nat
  is_buffer : Bool
  has_surface : Bool
  ancestors : List Nat
deriving DecidableEq

/-- The node's parent tree, `node->parent`. -/
def SceneNode.parent (n : SceneNode) : Option Nat :=
  n.ancestors.head?

/-- The node's grandparent tree, `node->parent->node.parent`. -/
def SceneNode.grandparent (n : SceneNode) : Option Nat :=
  n.ancestors.get? 1

/-- The node's great-grandparent tree. -/
def SceneNode.greatgrandparent (n : SceneNode) : Option Nat :=
  n.ancestors.get? 2

/-- The region-matching and part-scan portion of `ssd_get_part_type`
(src/ssd/ssd.c lines 92-137): choose a part collection by matching the
node's parent/grandparent/great-grandparent against the region sub-trees
in source order, then linear-scan it for the part whose node is the input
node; `LAB_SSD_NONE` when no region or no part matches. -/
def node_part_type (ssd : Ssd) (n : SceneNode) : ssd_part_type :=
  let part_list : Option (List (Nat × ssd_part_type)) :=
    if n.parent = some ssd.titlebar_active_tree then
      some ssd.titlebar_active_parts
    else if n.grandparent = some ssd.titlebar_active_tree then
      some ssd.titlebar_active_parts
    else if n.greatgrandparent = some ssd.titlebar_active_tree then
      some ssd.titlebar_active_parts
    else if n.parent = some ssd.border_active_tree then
      some ssd.border_active_parts
    else if n.parent = some ssd.titlebar_inactive_tree then
      some ssd.titlebar_inactive_parts
    else if n.grandparent = some ssd.titlebar_inactive_tree then
      some ssd.titlebar_inactive_parts
    else if n.greatgrandparent = some ssd.titlebar_inactive_tree then
      some ssd.titlebar_inactive_parts
    else if n.parent = some ssd.border_inactive_tree then
      some ssd.border_inactive_parts
    else
      none
  match part_list with
  | none => LAB_SSD_NONE
  | some l =>
    match l.find? (fun p => p.1 == n.id) with
    | some p => p.2
    | none => LAB_SSD_NONE

/-- Embedding of the public classifier `ssd_get_part_type`
(src/ssd/ssd.c lines 79-146): null node yields NONE; a buffer node
carrying a client surface yields CLIENT; a null decoration yields NONE;
otherwise the node-based lookup runs and, only when it produced a
non-NONE part, the cursor-based `get_resizing_type` may override it. -/
def ssd_get_part_type (resize_corner_range theme_titlebar_height : Int)
    (ssd : Option Ssd) (node : Option SceneNode)
    (cursor : Option WlrCursor) : ssd_part_type :=
  match node with
  | none => LAB_SSD_NONE
  | some n =>
    if n.is_buffer && n.has_surface then
      LAB_SSD_CLIENT
    else
      match ssd with
      | none => LAB_SSD_NONE
      | some s =>
        let part_type := node_part_type s n
        if part_type = LAB_SSD_NONE then
          part_type
        else
          let resizing_type :=
            get_resizing_type resize_corner_range theme_titlebar_height
              (some s) cursor
          if resizing_type ≠ LAB_SSD_NONE then resizing_type else part_type

/- ------------------------------------------------------------------ -/
/- Decoration visibility toggling (ssd_set_active)                    -/
/- ------------------------------------------------------------------ -/

/-- The enabled bit of each decoration sub-tree node touched by
`ssd_set_active`; the shadow sub-trees are optional
(`ssd->shadow.active.tree` may be null), carried with their enabled
bit when present. -/
structure SsdVisibility where
  border_active : Bool
  border_inactive : Bool
  titlebar_active : Bool
  titlebar_inactive : Bool
  shadow_active : Option Bool
  shadow_inactive : Option Bool
deriving DecidableEq

/-- Embedding of `ssd_set_active` (src/ssd/ssd.c lines 240-258) acting on
the visibility state: no-op on a null decoration, otherwise the active
sub-trees are enabled exactly when `active` holds and the inactive ones
exactly when it does not, shadows included when present. -/
def ssd_set_active (ssd : Option SsdVisibility) (active : Bool) :
    Option SsdVisibility :=
  match ssd with
  | none => none
  | some t =>
    some { border_active := active
           border_inactive := !active
           titlebar_active := active
           titlebar_inactive := !active
           shadow_active := t.shadow_active.map (fun _ => active)
           shadow_inactive := t.shadow_inactive.map (fun _ => !active) }

/- ------------------------------------------------------------------ -/
/- Interactive move geometry (src/interactive.c)                      -/
/- ------------------------------------------------------------------ -/

/-- Conversion of a C `double` to a C `int` for exactly representable
values: truncation toward zero on the rationals. -/
def c_double_to_int (q : Rat) : Int :=
  if 0 ≤ q then q.floor else -((-q).floor)

/-- Embedding of the static function `max_move_scale`
(src/interactive.c lines 22-33): the cursor's fractional position within
the old extent is preserved within the new extent, and the result is
clamped to never be less than the old position. -/
def max_move_scale (pos_cursor pos_old size_old size_new : Rat) : Int :=
  let anchor_frac := (pos_cursor - pos_old) / size_old
  let pos_new := c_double_to_int (pos_cursor - size_new * anchor_frac)
  if (pos_new : Rat) < pos_old then c_double_to_int pos_old else pos_new

/-- The server fields read and written by `interactive_anchor_to_cursor`:
the grab-time anchor box, the grab-time cursor position and the live
cursor position (`server->seat.cursor`). -/
structure MoveGrabState where
  grab_box : WlrBox
  grab_x : Rat
  grab_y : Rat
  cursor_x : Rat
  cursor_y : Rat
deriving DecidableEq

/-- Embedding of `interactive_anchor_to_cursor`
(src/interactive.c lines 35-52), past its MOVE-mode assertion: a no-op
on an empty new box, otherwise the grab box is rescaled around the grab
cursor axis by axis and the live box origin is recomputed from the new
grab box plus the cursor displacement since grab start.  Returns the
updated server state and the updated `geo` box. -/
def interactive_anchor_to_cursor (st : MoveGrabState) (geo : WlrBox) :
    MoveGrabState × WlrBox :=
  if wlr_box_empty geo then
    (st, geo)
  else
    let nx := max_move_scale st.grab_x (st.grab_box.x : Rat)
      (st.grab_box.width : Rat) (geo.width : Rat)
    let ny := max_move_scale st.grab_y (st.grab_box.y : Rat)
      (st.grab_box.height : Rat) (geo.height : Rat)
    let gb : WlrBox :=
      { x := nx, y := ny, width := geo.width, height := geo.height }
    let geo' : WlrBox :=
      { geo with
        x := c_double_to_int ((nx : Rat) + (st.cursor_x - st.grab_x)),
        y := c_double_to_int ((ny : Rat) + (st.cursor_y - st.grab_y)) }
    ({ st with grab_box := gb }, geo')

/- ------------------------------------------------------------------ -/
/- Edge-snap detection (src/interactive.c)                            -/
/- ------------------------------------------------------------------ -/

/-- Embedding of `enum view_edge` as used by `edge_from_cursor`. -/
inductive view_edge where
  | VIEW_EDGE_INVALID
  | VIEW_EDGE_LEFT
  | VIEW_EDGE_RIGHT
  | VIEW_EDGE_UP
  | VIEW_EDGE_DOWN
  | VIEW_EDGE_CENTER
deriving DecidableEq

open view_edge

/-- The output fields read by `edge_from_cursor`: the result of the
external `output_is_usable` check and the output's usable-area box. -/
structure SnapOutput where
  usable : Bool
  usable_area : WlrBox
deriving DecidableEq

/-- Embedding of `edge_from_cursor` (src/interactive.c lines 55-97).
The external collaborators are passed as values: `grabbed_floating` is
`view_is_floating(server->grabbed_view)`, `snap_edge_range` is
`rc.snap_edge_range`, `snap_top_maximize` is `rc.snap_top_maximize`,
`output` is the output nearest to the cursor, and `cursor_x`/`cursor_y`
are the cursor coordinates already translated into that output's local
space (the translation itself is `wlr_output_layout_output_coords`, an
external pure coordinate shift). -/
def edge_from_cursor (grabbed_floating : Bool) (snap_edge_range : Int)
    (snap_top_maximize : Bool) (output : SnapOutput)
    (cursor_x cursor_y : Rat) : view_edge :=
  if !grabbed_floating then
    VIEW_EDGE_INVALID
  else if snap_edge_range = 0 then
    VIEW_EDGE_INVALID
  else if !output.usable then
    VIEW_EDGE_INVALID
  else if cursor_x ≤ ((output.usable_area.x + snap_edge_range : Int) : Rat) then
    VIEW_EDGE_LEFT
  else if ((output.usable_area.x + output.usable_area.width -
      snap_edge_range : Int) : Rat) ≤ cursor_x then
    VIEW_EDGE_RIGHT
  else if cursor_y ≤ ((output.usable_area.y + snap_edge_range : Int) : Rat) then
    if snap_top_maximize then VIEW_EDGE_CENTER else VIEW_EDGE_UP
  else if ((output.usable_area.y + output.usable_area.height -
      snap_edge_range : Int) : Rat) ≤ cursor_y then
    VIEW_EDGE_DOWN
  else
    VIEW_EDGE_INVALID

/- ------------------------------------------------------------------ -/
/- Window-switcher cycle controller (src/osd.c)                       -/
/- ------------------------------------------------------------------ -/

/-- Embedding of `enum lab_cycle_dir`. -/
inductive lab_cycle_dir where
  | LAB_CYCLE_DIR_FORWARD
  | LAB_CYCLE_DIR_BACKWARD
deriving DecidableEq

/-- Embedding of the input-mode states used by osd.c and interactive.c. -/
inductive lab_input_state where
  | LAB_INPUT_STATE_PASSTHROUGH
  | LAB_INPUT_STATE_MOVE
  | LAB_INPUT_STATE_RESIZE
  | LAB_INPUT_STATE_WINDOW_SWITCHER
deriving DecidableEq

open lab_cycle_dir lab_input_state

/-- Modelled from the spec: `view_next_no_head_stop` (view.c, not under
src/), the forward stacking-order iterator the spec describes as
advancing by one over the filtered, stacking-ordered list with
wrap-around that skips the list head and never stops there.  With no
start view the scan begins at the head, so the first matching view of
the list is returned; with a start view the scan begins just after it,
wraps, and can end by returning the start view itself; `none` when no
view matches the criteria (or the start view is not on the list). -/
def view_next_no_head_stop (views : List Nat) (crit : Nat → Bool)
    (view : Option Nat) : Option Nat :=
  match view with
  | none => views.find? crit
  | some v =>
    match views.findIdx? (fun x => x == v) with
    | none => none
    | some i => (views.drop (i + 1) ++ views.take i ++ [v]).find? crit

/-- Modelled from the spec: `view_prev_no_head_stop` (view.c, not under
src/), the backward counterpart: the scan begins just before the start
view (or at the stacking-order bottom when there is none) and proceeds
toward the top, wrapping past the head. -/
def view_prev_no_head_stop (views : List Nat) (crit : Nat → Bool)
    (view : Option Nat) : Option Nat :=
  match view with
  | none => views.reverse.find? crit
  | some v =>
    match views.findIdx? (fun x => x == v) with
    | none => none
    | some i =>
      ((views.take i).reverse ++ (views.drop (i + 1)).reverse ++ [v]).find? crit

/-- Embedding of the static function `get_next_cycle_view`
(src/osd.c lines 33-59): choose the iterator from the direction; with no
start view in the forward direction, first pre-select
`iter(&server->views, NULL, criteria)` and then apply the iterator to
that pre-selection.  `views` is the stacking-ordered view list (topmost
first) and `crit` the configured window-switcher criteria. -/
def get_next_cycle_view (views : List Nat) (crit : Nat → Bool)
    (start_view : Option Nat) (dir : lab_cycle_dir) : Option Nat :=
  let forwards := dir = LAB_CYCLE_DIR_FORWARD
  let iter := if forwards then view_next_no_head_stop else view_prev_no_head_stop
  let start_view :=
    if start_view.isNone && forwards then iter views crit none else start_view
  iter views crit start_view

/-- Embedding of `struct osd_state`: the current cycle selection, the
preview node with its recorded original parent, anchor sibling and
enabled bit, and whether a preview outline object exists. -/
structure OsdState where
  cycle_view : Option Nat
  preview_node : Option Nat
  preview_parent : Option Nat
  preview_anchor : Option Nat
  preview_was_enabled : Bool
  preview_outline : Bool
deriving BEq

/-- The server fields the cycle controller reads and writes: the input
mode, the stacking-ordered view list (topmost first), the switcher
criteria and the OSD state. -/
structure OsdServer where
  input_mode : lab_input_state
  views : List Nat
  criteria : Nat → Bool
  osd_state : OsdState

/-- Embedding of the state effect of the static function
`restore_preview_node` (src/osd.c lines 105-129): when a preview node is
recorded it is reparented and re-stacked in the scene graph (external
scene operations) and the three preview fields are cleared. -/
def restore_preview_node (srv : OsdServer) : OsdServer :=
  if srv.osd_state.preview_node.isSome then
    { srv with osd_state :=
      { srv.osd_state with
        preview_node := none, preview_parent := none, preview_anchor := none } }
  else
    srv

/-- Embedding of `osd_finish` (src/osd.c lines 157-175): restore the
preview node, end the focus override (returning the input mode to
passthrough), clear the preview and selection fields and destroy the
preview outline. -/
def osd_finish (srv : OsdServer) : OsdServer :=
  let srv := restore_preview_node srv
  { srv with
    input_mode := LAB_INPUT_STATE_PASSTHROUGH,
    osd_state :=
      { srv.osd_state with
        preview_node := none, preview_anchor := none, cycle_view := none,
        preview_outline := false } }

/-- Embedding of `osd_begin` (src/osd.c lines 131-146): only from
passthrough mode; advances the cycle selection via `get_next_cycle_view`
and begins the focus override, switching the input mode to the window
switcher. -/
def osd_begin (srv : OsdServer) (direction : lab_cycle_dir) : OsdServer :=
  if srv.input_mode ≠ LAB_INPUT_STATE_PASSTHROUGH then
    srv
  else
    { srv with
      input_mode := LAB_INPUT_STATE_WINDOW_SWITCHER,
      osd_state :=
        { srv.osd_state with
          cycle_view :=
            get_next_cycle_view srv.views srv.criteria
              srv.osd_state.cycle_view direction } }

/-- Embedding of `osd_cycle` (src/osd.c lines 148-155), past its
window-switcher-mode assertion. -/
def osd_cycle (srv : OsdServer) (direction : lab_cycle_dir) : OsdServer :=
  { srv with osd_state :=
    { srv.osd_state with
      cycle_view :=
        get_next_cycle_view srv.views srv.criteria
          srv.osd_state.cycle_view direction } }

/-- Embedding of `osd_on_view_destroy` (src/osd.c lines 61-103) for the
destroyed view `v`: nothing happens unless the switcher is active; if the
destroyed view is the current selection, the selection is stepped
backward, and if that lands on the destroyed view again or nowhere the
whole session is force-finished; independently, if the destroyed view's
scene node (`v_scene`, null when the view has no scene tree) is the
recorded preview anchor, the anchor is replaced by the preceding scene
node (`prev_of`, the external `lab_wlr_scene_get_prev_node`). -/
def osd_on_view_destroy (srv : OsdServer) (v : Nat) (v_scene : Option Nat)
    (prev_of : Nat → Option Nat) : OsdServer :=
  if srv.input_mode ≠ LAB_INPUT_STATE_WINDOW_SWITCHER then
    srv
  else
    let srv :=
      if srv.osd_state.cycle_view = some v then
        let cv := get_next_cycle_view srv.views srv.criteria (some v)
          LAB_CYCLE_DIR_BACKWARD
        let srv := { srv with osd_state := { srv.osd_state with cycle_view := cv } }
        if cv = some v ∨ cv = none then osd_finish srv else srv
      else
        srv
    match v_scene with
    | none => srv
    | some node =>
      if srv.osd_state.preview_anchor = some node then
        { srv with osd_state :=
          { srv.osd_state with preview_anchor := prev_of node } }
      else
        srv

/- ------------------------------------------------------------------ -/
/- Helper lemmas                                                      -/
/- ------------------------------------------------------------------ -/

/-- The Batteries-level `Rat.floor` agrees with Mathlib's floor. -/
theorem rat_floor_eq_intFloor (q : Rat) : q.floor = ⌊q⌋ := rfl

/-- Truncation toward zero is the identity on integer values. -/
theorem c_double_to_int_intCast (p : Int) : c_double_to_int (p : Rat) = p := by
  unfold c_double_to_int
  split
  · rw [rat_floor_eq_intFloor]
    exact Int.floor_intCast p
  · have h : (-(p : Rat)) = ((-p : Int) : Rat) := by push_cast; ring
    rw [h, rat_floor_eq_intFloor, Int.floor_intCast]
    ring

/-- With an integer old position, `max_move_scale` is the truncated
fraction-preserving formula clamped from below by that old position. -/
theorem max_move_scale_eq_max (pc : Rat) (p : Int) (so sn : Rat) :
    max_move_scale pc (p : Rat) so sn =
      max p (c_double_to_int (pc - sn * ((pc - (p : Rat)) / so))) := by
  unfold max_move_scale
  by_cases hlt :
      ((c_double_to_int (pc - sn * ((pc - (p : Rat)) / so)) : Rat) < (p : Rat))
  · rw [if_pos hlt, c_double_to_int_intCast]
    have h : c_double_to_int (pc - sn * ((pc - (p : Rat)) / so)) < p := by
      exact_mod_cast hlt
    exact (max_eq_left h.le).symm
  · rw [if_neg hlt]
    have h : p ≤ c_double_to_int (pc - sn * ((pc - (p : Rat)) / so)) := by
      exact_mod_cast not_lt.mp hlt
    exact (max_eq_right h).symm

/-- The spec's clamp formula: `clamp(x, lo, hi)` clamps `x` into the
interval from `lo` to `hi`. -/
def spec_clamp (lo hi x : Int) : Int :=
  max lo (min x hi)

/- ------------------------------------------------------------------ -/
/- Claim theorems                                                     -/
/- ------------------------------------------------------------------ -/

/-- C7: the containment predicate is total over all pairs (it is a
Boolean function on the closed enumeration); it is reflexive; ALL
contains everything; TITLE contains TITLEBAR while the two differ (so
the relation is not antisymmetric, hence not a partial order); each of
the four straight edges contains exactly itself plus its two adjacent
corners; and over all pairs the predicate coincides exactly with the
documented hierarchy, so every pair outside it yields false. -/
theorem ssd_part_contains_spec :
    (∀ a : ssd_part_type, ssd_part_contains a a = true) ∧
    (∀ a : ssd_part_type, ssd_part_contains LAB_SSD_ALL a = true) ∧
    (ssd_part_contains LAB_SSD_PART_TITLE LAB_SSD_PART_TITLEBAR = true ∧
      ssd_part_contains LAB_SSD_PART_TITLEBAR LAB_SSD_PART_TITLE = true ∧
      LAB_SSD_PART_TITLE ≠ LAB_SSD_PART_TITLEBAR) ∧
    (∀ c : ssd_part_type,
      (ssd_part_contains LAB_SSD_PART_TOP c = true ↔
        (c = LAB_SSD_PART_TOP ∨ c = LAB_SSD_PART_CORNER_TOP_LEFT ∨
          c = LAB_SSD_PART_CORNER_TOP_RIGHT)) ∧
      (ssd_part_contains LAB_SSD_PART_RIGHT c = true ↔
        (c = LAB_SSD_PART_RIGHT ∨ c = LAB_SSD_PART_CORNER_TOP_RIGHT ∨
          c = LAB_SSD_PART_CORNER_BOTTOM_RIGHT)) ∧
      (ssd_part_contains LAB_SSD_PART_BOTTOM c = true ↔
        (c = LAB_SSD_PART_BOTTOM ∨ c = LAB_SSD_PART_CORNER_BOTTOM_RIGHT ∨
          c = LAB_SSD_PART_CORNER_BOTTOM_LEFT)) ∧
      (ssd_part_contains LAB_SSD_PART_LEFT c = true ↔
        (c = LAB_SSD_PART_LEFT ∨ c = LAB_SSD_PART_CORNER_TOP_LEFT ∨
          c = LAB_SSD_PART_CORNER_BOTTOM_LEFT))) ∧
    (∀ w c : ssd_part_type, ssd_part_contains w c = documentedHierarchy w c) := by
  decide

/-- C5: in the geometric point classifier the corner zone height and
width are the configured corner range clamped between zero and half the
effective box's height and width (C truncating division), so they never
exceed half the box's extent on a box of nonnegative extent; a
configured range of 10000 on a 40-by-40 box yields 20-by-20 zones. -/
theorem corner_zone_clamp_spec :
    (∀ r h : Int, corner_height r h = spec_clamp 0 (Int.tdiv h 2) r) ∧
    (∀ r w : Int, corner_width r w = spec_clamp 0 (Int.tdiv w 2) r) ∧
    (∀ r h : Int, 0 ≤ h → corner_height r h ≤ Int.tdiv h 2) ∧
    (∀ r w : Int, 0 ≤ w → corner_width r w ≤ Int.tdiv w 2) ∧
    corner_height 10000 40 = 20 ∧ corner_width 10000 40 = 20 := by
  refine ⟨fun r h => rfl, fun r w => rfl, ?_, ?_, by decide, by decide⟩
  · intro r h h0
    have h2 : 0 ≤ Int.tdiv h 2 := Int.tdiv_nonneg h0 (by norm_num)
    unfold corner_height
    omega
  · intro r w h0
    have h2 : 0 ≤ Int.tdiv w 2 := Int.tdiv_nonneg h0 (by norm_num)
    unfold corner_width
    omega

/-- C5 witness: the clamp bound applied at range 10000 and a box of
height 40. -/
theorem corner_zone_clamp_spec_witness :
    corner_height 10000 40 ≤ Int.tdiv 40 2 :=
  corner_zone_clamp_spec.2.2.1 10000 40 (by decide)

/-- C10: the public node classifier returns NONE for a null scene node,
and for a non-null node that does not directly represent client window
content (not a buffer node with a surface) together with a null
decoration handle it also returns NONE. -/
theorem ssd_get_part_type_null_spec :
    (∀ (rcr th : Int) (s : Option Ssd) (c : Option WlrCursor),
      ssd_get_part_type rcr th s none c = LAB_SSD_NONE) ∧
    (∀ (rcr th : Int) (n : SceneNode) (c : Option WlrCursor),
      (n.is_buffer && n.has_surface) = false →
      ssd_get_part_type rcr th none (some n) c = LAB_SSD_NONE) := by
  constructor
  · intro rcr th s c
    rfl
  · intro rcr th n c h
    simp [ssd_get_part_type, h]

/-- C10 witness: a non-buffer node with a null decoration classifies as
NONE. -/
theorem ssd_get_part_type_null_spec_witness :
    ssd_get_part_type 8 10 none (some ⟨1, false, false, []⟩) none =
      LAB_SSD_NONE :=
  ssd_get_part_type_null_spec.2 8 10 ⟨1, false, false, []⟩ none rfl

/-- C8: `ssd_set_active` is a no-op on an absent decoration handle, and
otherwise leaves the active titlebar and border sub-trees enabled exactly
when `active` holds and the inactive ones exactly when it does not (so
exactly one of each active/inactive pair is enabled), with shadow
sub-trees toggled in the same lockstep whenever they are present. -/
theorem ssd_set_active_spec :
    (∀ a : Bool, ssd_set_active none a = none) ∧
    (∀ (t : SsdVisibility) (a : Bool) (t' : SsdVisibility),
      ssd_set_active (some t) a = some t' →
      t'.titlebar_active = a ∧ t'.titlebar_inactive = !a ∧
      t'.border_active = a ∧ t'.border_inactive = !a ∧
      t'.titlebar_active ≠ t'.titlebar_inactive ∧
      t'.border_active ≠ t'.border_inactive ∧
      t'.shadow_active = t.shadow_active.map (fun _ => a) ∧
      t'.shadow_inactive = t.shadow_inactive.map (fun _ => !a)) := by
  constructor
  · intro a
    rfl
  · intro t a t' h
    simp only [ssd_set_active, Option.some.injEq] at h
    subst h
    cases a <;> simp

/-- C8 witness: toggling a full decoration to active leaves its titlebar
pair with exactly one side enabled. -/
theorem ssd_set_active_spec_witness :
    (⟨true, false, true, false, some true, some false⟩ :
      SsdVisibility).titlebar_active ≠
    (⟨true, false, true, false, some true, some false⟩ :
      SsdVisibility).titlebar_inactive :=
  (ssd_set_active_spec.2 ⟨false, false, false, false, some false, some false⟩
    true ⟨true, false, true, false, some true, some false⟩ rfl).2.2.2.2.1

/-- C4: snap-edge detection returns INVALID whenever the grabbed window
is not floating or the snap range is zero; with a floating window, a
nonzero range and a usable output it evaluates the four margins in the
order left, right, top, bottom with the first match winning (the top
margin resolving to CENTER when snap-top-maximize is on and UP
otherwise); and on the usable area (0,0,1000,800) with range 10 it maps
the five sample cursors to LEFT, RIGHT, UP/CENTER, DOWN and INVALID. -/
theorem edge_from_cursor_spec :
    (∀ (r : Int) (stm : Bool) (out : SnapOutput) (cx cy : Rat),
      edge_from_cursor false r stm out cx cy = VIEW_EDGE_INVALID) ∧
    (∀ (stm : Bool) (out : SnapOutput) (cx cy : Rat),
      edge_from_cursor true 0 stm out cx cy = VIEW_EDGE_INVALID) ∧
    (∀ (r : Int) (stm : Bool) (out : SnapOutput) (cx cy : Rat),
      r ≠ 0 → out.usable = true →
      ((cx ≤ ((out.usable_area.x + r : Int) : Rat) →
        edge_from_cursor true r stm out cx cy = VIEW_EDGE_LEFT) ∧
      (¬ cx ≤ ((out.usable_area.x + r : Int) : Rat) →
        ((out.usable_area.x + out.usable_area.width - r : Int) : Rat) ≤ cx →
        edge_from_cursor true r stm out cx cy = VIEW_EDGE_RIGHT) ∧
      (¬ cx ≤ ((out.usable_area.x + r : Int) : Rat) →
        ¬ ((out.usable_area.x + out.usable_area.width - r : Int) : Rat) ≤ cx →
        cy ≤ ((out.usable_area.y + r : Int) : Rat) →
        edge_from_cursor true r stm out cx cy =
          (if stm then VIEW_EDGE_CENTER else VIEW_EDGE_UP)) ∧
      (¬ cx ≤ ((out.usable_area.x + r : Int) : Rat) →
        ¬ ((out.usable_area.x + out.usable_area.width - r : Int) : Rat) ≤ cx →
        ¬ cy ≤ ((out.usable_area.y + r : Int) : Rat) →
        ((out.usable_area.y + out.usable_area.height - r : Int) : Rat) ≤ cy →
        edge_from_cursor true r stm out cx cy = VIEW_EDGE_DOWN) ∧
      (¬ cx ≤ ((out.usable_area.x + r : Int) : Rat) →
        ¬ ((out.usable_area.x + out.usable_area.width - r : Int) : Rat) ≤ cx →
        ¬ cy ≤ ((out.usable_area.y + r : Int) : Rat) →
        ¬ ((out.usable_area.y + out.usable_area.height - r : Int) : Rat) ≤ cy →
        edge_from_cursor true r stm out cx cy = VIEW_EDGE_INVALID))) ∧
    (edge_from_cursor true 10 false ⟨true, ⟨0, 0, 1000, 800⟩⟩ 5 400 =
        VIEW_EDGE_LEFT ∧
      edge_from_cursor true 10 false ⟨true, ⟨0, 0, 1000, 800⟩⟩ 995 400 =
        VIEW_EDGE_RIGHT ∧
      edge_from_cursor true 10 false ⟨true, ⟨0, 0, 1000, 800⟩⟩ 500 5 =
        VIEW_EDGE_UP ∧
      edge_from_cursor true 10 true ⟨true, ⟨0, 0, 1000, 800⟩⟩ 500 5 =
        VIEW_EDGE_CENTER ∧
      edge_from_cursor true 10 false ⟨true, ⟨0, 0, 1000, 800⟩⟩ 500 795 =
        VIEW_EDGE_DOWN ∧
      edge_from_cursor true 10 false ⟨true, ⟨0, 0, 1000, 800⟩⟩ 500 400 =
        VIEW_EDGE_INVALID) := by
  refine ⟨fun r stm out cx cy => rfl, fun stm out cx cy => rfl, ?_,
    by decide, by decide, by decide, by decide, by decide, by decide⟩
  intro r stm out cx cy hr hu
  have hgf : ¬ ((!true) = true) := by decide
  refine ⟨?_, ?_, ?_, ?_, ?_⟩
  · intro h1
    unfold edge_from_cursor
    rw [if_neg hgf, if_neg hr, hu, if_neg hgf, if_pos h1]
  · intro h1 h2
    unfold edge_from_cursor
    rw [if_neg hgf, if_neg hr, hu, if_neg hgf, if_neg h1, if_pos h2]
  · intro h1 h2 h3
    unfold edge_from_cursor
    rw [if_neg hgf, if_neg hr, hu, if_neg hgf, if_neg h1, if_neg h2, if_pos h3]
  · intro h1 h2 h3 h4
    unfold edge_from_cursor
    rw [if_neg hgf, if_neg hr, hu, if_neg hgf, if_neg h1, if_neg h2, if_neg h3,
      if_pos h4]
  · intro h1 h2 h3 h4
    unfold edge_from_cursor
    rw [if_neg hgf, if_neg hr, hu, if_neg hgf, if_neg h1, if_neg h2, if_neg h3,
      if_neg h4]

/-- C4 witness: the priority chain applied on the sample usable area at
the left-margin cursor. -/
theorem edge_from_cursor_spec_witness :
    edge_from_cursor true 10 false ⟨true, ⟨0, 0, 1000, 800⟩⟩ 5 400 =
      VIEW_EDGE_LEFT :=
  (edge_from_cursor_spec.2.2.1 10 false ⟨true, ⟨0, 0, 1000, 800⟩⟩ 5 400
    (by decide) rfl).1 (by norm_num)

/-- C3: `interactive_anchor_to_cursor` in MOVE mode is a no-op when the
new box is empty (zero area included); otherwise, for a grab box of
positive extent, each axis of the stored grab-box anchor becomes the
truncation of `cursor_grab - new_size * ((cursor_grab - old_pos) /
old_size)` clamped from below by the old anchor position (so it is never
less than the old position), the grab box takes the new size, and on the
concrete old box (0,0,200,100) with grab cursor (150,50) and new box
(w=100,h=50) the resulting anchor is (75,25). -/
theorem interactive_anchor_to_cursor_spec :
    (∀ (st : MoveGrabState) (geo : WlrBox),
      wlr_box_empty geo = true →
      interactive_anchor_to_cursor st geo = (st, geo)) ∧
    (∀ (st : MoveGrabState) (geo : WlrBox),
      wlr_box_empty geo = false →
      0 < st.grab_box.width → 0 < st.grab_box.height →
      ((interactive_anchor_to_cursor st geo).1.grab_box.x =
        max st.grab_box.x (c_double_to_int (st.grab_x -
          (geo.width : Rat) *
            ((st.grab_x - (st.grab_box.x : Rat)) / (st.grab_box.width : Rat)))) ∧
      (interactive_anchor_to_cursor st geo).1.grab_box.y =
        max st.grab_box.y (c_double_to_int (st.grab_y -
          (geo.height : Rat) *
            ((st.grab_y - (st.grab_box.y : Rat)) / (st.grab_box.height : Rat)))) ∧
      (interactive_anchor_to_cursor st geo).1.grab_box.width = geo.width ∧
      (interactive_anchor_to_cursor st geo).1.grab_box.height = geo.height ∧
      st.grab_box.x ≤ (interactive_anchor_to_cursor st geo).1.grab_box.x ∧
      st.grab_box.y ≤ (interactive_anchor_to_cursor st geo).1.grab_box.y)) ∧
    (interactive_anchor_to_cursor ⟨⟨0, 0, 200, 100⟩, 150, 50, 150, 50⟩
        ⟨0, 0, 100, 50⟩).1.grab_box = ⟨75, 25, 100, 50⟩ := by
  have main : ∀ (st : MoveGrabState) (geo : WlrBox),
      wlr_box_empty geo = false →
      0 < st.grab_box.width → 0 < st.grab_box.height →
      ((interactive_anchor_to_cursor st geo).1.grab_box.x =
        max st.grab_box.x (c_double_to_int (st.grab_x -
          (geo.width : Rat) *
            ((st.grab_x - (st.grab_box.x : Rat)) / (st.grab_box.width : Rat)))) ∧
      (interactive_anchor_to_cursor st geo).1.grab_box.y =
        max st.grab_box.y (c_double_to_int (st.grab_y -
          (geo.height : Rat) *
            ((st.grab_y - (st.grab_box.y : Rat)) / (st.grab_box.height : Rat)))) ∧
      (interactive_anchor_to_cursor st geo).1.grab_box.width = geo.width ∧
      (interactive_anchor_to_cursor st geo).1.grab_box.height = geo.height ∧
      st.grab_box.x ≤ (interactive_anchor_to_cursor st geo).1.grab_box.x ∧
      st.grab_box.y ≤ (interactive_anchor_to_cursor st geo).1.grab_box.y) := by
    intro st geo h hw hh
    have hne : ¬ wlr_box_empty geo = true := by simp [h]
    have hx : (interactive_anchor_to_cursor st geo).1.grab_box.x =
        max_move_scale st.grab_x (st.grab_box.x : Rat)
          (st.grab_box.width : Rat) (geo.width : Rat) := by
      simp [interactive_anchor_to_cursor, hne]
    have hy : (interactive_anchor_to_cursor st geo).1.grab_box.y =
        max_move_scale st.grab_y (st.grab_box.y : Rat)
          (st.grab_box.height : Rat) (geo.height : Rat) := by
      simp [interactive_anchor_to_cursor, hne]
    refine ⟨?_, ?_, by simp [interactive_anchor_to_cursor, hne],
      by simp [interactive_anchor_to_cursor, hne], ?_, ?_⟩
    · rw [hx, max_move_scale_eq_max]
    · rw [hy, max_move_scale_eq_max]
    · rw [hx, max_move_scale_eq_max]
      exact le_max_left _ _
    · rw [hy, max_move_scale_eq_max]
      exact le_max_left _ _
  refine ⟨?_, main, ?_⟩
  · intro st geo h
    simp [interactive_anchor_to_cursor, h]
  · obtain ⟨hx, hy, hwid, hht, _, _⟩ :=
      main ⟨⟨0, 0, 200, 100⟩, 150, 50, 150, 50⟩ ⟨0, 0, 100, 50⟩ rfl
        (by norm_num) (by norm_num)
    norm_num at hx hy hwid hht
    rw [show ((75 : Rat)) = ((75 : Int) : Rat) from by norm_num,
      c_double_to_int_intCast] at hx
    rw [show ((25 : Rat)) = ((25 : Int) : Rat) from by norm_num,
      c_double_to_int_intCast] at hy
    have hx75 : (interactive_anchor_to_cursor
        ⟨⟨0, 0, 200, 100⟩, 150, 50, 150, 50⟩ ⟨0, 0, 100, 50⟩).1.grab_box.x =
        75 := by
      rw [hx]; omega
    have hy25 : (interactive_anchor_to_cursor
        ⟨⟨0, 0, 200, 100⟩, 150, 50, 150, 50⟩ ⟨0, 0, 100, 50⟩).1.grab_box.y =
        25 := by
      rw [hy]; omega
    rw [show (interactive_anchor_to_cursor
        ⟨⟨0, 0, 200, 100⟩, 150, 50, 150, 50⟩ ⟨0, 0, 100, 50⟩).1.grab_box =
        ⟨(interactive_anchor_to_cursor
            ⟨⟨0, 0, 200, 100⟩, 150, 50, 150, 50⟩ ⟨0, 0, 100, 50⟩).1.grab_box.x,
          (interactive_anchor_to_cursor
            ⟨⟨0, 0, 200, 100⟩, 150, 50, 150, 50⟩ ⟨0, 0, 100, 50⟩).1.grab_box.y,
          (interactive_anchor_to_cursor
            ⟨⟨0, 0, 200, 100⟩, 150, 50, 150, 50⟩
              ⟨0, 0, 100, 50⟩).1.grab_box.width,
          (interactive_anchor_to_cursor
            ⟨⟨0, 0, 200, 100⟩, 150, 50, 150, 50⟩
              ⟨0, 0, 100, 50⟩).1.grab_box.height⟩ from rfl,
      hx75, hy25, hwid, hht]

/-- C3 witness: the empty-box no-op and the non-empty formula applied at
the concrete grab state of the claim. -/
theorem interactive_anchor_to_cursor_spec_witness :
    interactive_anchor_to_cursor ⟨⟨0, 0, 200, 100⟩, 150, 50, 150, 50⟩
        ⟨0, 0, 0, 0⟩ =
      (⟨⟨0, 0, 200, 100⟩, 150, 50, 150, 50⟩, ⟨0, 0, 0, 0⟩) ∧
    (interactive_anchor_to_cursor ⟨⟨0, 0, 200, 100⟩, 150, 50, 150, 50⟩
        ⟨0, 0, 100, 50⟩).1.grab_box.x =
      max 0 (c_double_to_int (150 - (100 : Rat) * ((150 - 0) / 200))) :=
  ⟨interactive_anchor_to_cursor_spec.1 ⟨⟨0, 0, 200, 100⟩, 150, 50, 150, 50⟩
      ⟨0, 0, 0, 0⟩ rfl,
    by
      have h := (interactive_anchor_to_cursor_spec.2.1
        ⟨⟨0, 0, 200, 100⟩, 150, 50, 150, 50⟩ ⟨0, 0, 100, 50⟩ rfl
        (by norm_num) (by norm_num)).1
      simpa using h⟩

/-- Stepping forward from the head element of a nonempty list scans the
remainder and then the head itself. -/
theorem view_next_cons_self (v : Nat) (rest : List Nat) (crit : Nat → Bool) :
    view_next_no_head_stop (v :: rest) crit (some v) =
      (rest ++ [v]).find? crit := by
  simp [view_next_no_head_stop, List.findIdx?_cons]

/-- C6: the geometric point classifier returns NONE for every cursor
position contained in the computed effective bounding box (whatever the
guard flags), and returns NONE unconditionally when the window is
fullscreen, when decorations are disabled, when no decoration or no
cursor is given, or when the decoration has no view. -/
theorem get_resizing_type_none_spec :
    (∀ (rcr th : Int) (s : Ssd) (v : LabView) (c : WlrCursor),
      s.view = some v →
      wlr_box_contains_point (effective_box th v) c.x c.y = true →
      get_resizing_type rcr th (some s) (some c) = LAB_SSD_NONE) ∧
    (∀ (rcr th : Int) (s : Ssd) (v : LabView) (c : Option WlrCursor),
      s.view = some v → v.fullscreen = true →
      get_resizing_type rcr th (some s) c = LAB_SSD_NONE) ∧
    (∀ (rcr th : Int) (s : Ssd) (v : LabView) (c : Option WlrCursor),
      s.view = some v → v.ssd_enabled = false →
      get_resizing_type rcr th (some s) c = LAB_SSD_NONE) ∧
    (∀ (rcr th : Int) (c : Option WlrCursor),
      get_resizing_type rcr th none c = LAB_SSD_NONE) ∧
    (∀ (rcr th : Int) (s : Option Ssd),
      get_resizing_type rcr th s none = LAB_SSD_NONE) ∧
    (∀ (rcr th : Int) (s : Ssd) (c : Option WlrCursor),
      s.view = none → get_resizing_type rcr th (some s) c = LAB_SSD_NONE) := by
  refine ⟨?_, ?_, ?_, ?_, ?_, ?_⟩
  · intro rcr th s v c hv hc
    simp [get_resizing_type, hv, hc]
  · intro rcr th s v c hv hfs
    cases c with
    | none => simp [get_resizing_type, hv]
    | some c => simp [get_resizing_type, hv, hfs]
  · intro rcr th s v c hv hen
    cases c with
    | none => simp [get_resizing_type, hv]
    | some c => simp [get_resizing_type, hv, hen]
  · intro rcr th c
    cases c <;> rfl
  · intro rcr th s
    cases s with
    | none => rfl
    | some s =>
      cases hsv : s.view <;> simp [get_resizing_type, hsv]
  · intro rcr th s c hv
    cases c <;> simp [get_resizing_type, hv]

/-- C6 witness: a decoration around a non-fullscreen decorated view,
with the cursor inside the effective box, classifies as NONE. -/
theorem get_resizing_type_none_spec_witness :
    get_resizing_type 8 10
      (some ⟨some ⟨⟨0, 0, 100, 100⟩, 100, true, false, true⟩,
        10, 11, 12, 13, [], [], [], []⟩)
      (some ⟨50, 50⟩) = LAB_SSD_NONE :=
  get_resizing_type_none_spec.1 8 10
    ⟨some ⟨⟨0, 0, 100, 100⟩, 100, true, false, true⟩,
      10, 11, 12, 13, [], [], [], []⟩
    ⟨⟨0, 0, 100, 100⟩, 100, true, false, true⟩ ⟨50, 50⟩ rfl (by decide)

/-- C1 counterexample: over the stacking-ordered list [1, 2, 3] of three
focusable windows (1 topmost) with no prior selection, the first
begin(FORWARD) call sets the selection to window 2 (the second topmost),
not to window 3 as the claim asserts. -/
theorem osd_begin_forward_counterexample :
    (osd_begin ⟨LAB_INPUT_STATE_PASSTHROUGH, [1, 2, 3], fun _ => true,
        ⟨none, none, none, none, false, false⟩⟩
      LAB_CYCLE_DIR_FORWARD).osd_state.cycle_view = some 2 ∧
    (osd_begin ⟨LAB_INPUT_STATE_PASSTHROUGH, [1, 2, 3], fun _ => true,
        ⟨none, none, none, none, false, false⟩⟩
      LAB_CYCLE_DIR_FORWARD).osd_state.cycle_view ≠ some 3 := by
  refine ⟨rfl, fun h => ?_⟩
  have h2 : (some 2 : Option Nat) = some 3 :=
    Eq.trans (id rfl :
      (osd_begin ⟨LAB_INPUT_STATE_PASSTHROUGH, [1, 2, 3], fun _ => true,
          ⟨none, none, none, none, false, false⟩⟩
        LAB_CYCLE_DIR_FORWARD).osd_state.cycle_view = some 2).symm h
  simp at h2

/-- C1 (amended): window-cycle begin with forward direction and no prior
selection, over a stacking-ordered list of three focusable windows
[W1, W2, W3] with W1 topmost, sets the current selection to W2: the
pre-selection step selects the first focusable (topmost) window W1 and
the forward direction is then applied once, so the first begin(FORWARD)
call lands on the window after the topmost one, matching the source
comment that with no start view the second focusable view is returned. -/
theorem osd_begin_forward_amended (v1 v2 v3 : Nat) (st : OsdState)
    (h : st.cycle_view = none) :
    view_next_no_head_stop [v1, v2, v3] (fun _ => true) none = some v1 ∧
    (osd_begin ⟨LAB_INPUT_STATE_PASSTHROUGH, [v1, v2, v3], fun _ => true, st⟩
        LAB_CYCLE_DIR_FORWARD).osd_state.cycle_view = some v2 := by
  constructor
  · rfl
  · have e : (osd_begin ⟨LAB_INPUT_STATE_PASSTHROUGH, [v1, v2, v3],
        fun _ => true, st⟩ LAB_CYCLE_DIR_FORWARD).osd_state.cycle_view =
        get_next_cycle_view [v1, v2, v3] (fun _ => true) st.cycle_view
          LAB_CYCLE_DIR_FORWARD := rfl
    rw [e, h]
    show view_next_no_head_stop [v1, v2, v3] (fun _ => true)
      (view_next_no_head_stop [v1, v2, v3] (fun _ => true) none) = some v2
    rw [show view_next_no_head_stop [v1, v2, v3] (fun _ => true) none =
      some v1 from rfl]
    rw [view_next_cons_self]
    rfl

/-- C1 witness for the amended statement: the concrete three-window
stack [1, 2, 3]. -/
theorem osd_begin_forward_amended_witness :
    view_next_no_head_stop [1, 2, 3] (fun _ => true) none = some 1 ∧
    (osd_begin ⟨LAB_INPUT_STATE_PASSTHROUGH, [1, 2, 3], fun _ => true,
        ⟨none, none, none, none, false, false⟩⟩
      LAB_CYCLE_DIR_FORWARD).osd_state.cycle_view = some 2 :=
  osd_begin_forward_amended 1 2 3 ⟨none, none, none, none, false, false⟩ rfl

/-- C2 counterexample: a node whose parent is the active titlebar tree
but which is stored in no part collection classifies as NONE even though
a cursor is supplied and the geometric classifier yields the non-NONE
resizing type CORNER_TOP_LEFT for it, so the geometric result does not
override a NONE node-based result. -/
theorem ssd_get_part_type_override_counterexample :
    get_resizing_type 8 0
      (some ⟨some ⟨⟨0, 0, 100, 100⟩, 100, true, false, true⟩,
        10, 11, 12, 13, [], [], [], []⟩)
      (some ⟨-5, -5⟩) = LAB_SSD_PART_CORNER_TOP_LEFT ∧
    ssd_get_part_type 8 0
      (some ⟨some ⟨⟨0, 0, 100, 100⟩, 100, true, false, true⟩,
        10, 11, 12, 13, [], [], [], []⟩)
      (some ⟨42, false, false, [10]⟩) (some ⟨-5, -5⟩) = LAB_SSD_NONE ∧
    (LAB_SSD_NONE : ssd_part_type) ≠ LAB_SSD_PART_CORNER_TOP_LEFT := by
  refine ⟨by decide, by decide, by decide⟩

/-- C2 (amended): when a cursor position is supplied and the geometric
point classifier yields a non-NONE resizing-region type, that resizing
type is the returned result, overriding the node-based result — but only
when the node-based lookup itself produced a non-NONE part; when the
node-based lookup produced NONE (in particular because no part in the
matched region's collection stored the input node), the classifier
returns NONE without consulting the cursor. -/
theorem ssd_get_part_type_override_amended (rcr th : Int) (s : Ssd)
    (n : SceneNode) (c : Option WlrCursor)
    (hbuf : (n.is_buffer && n.has_surface) = false) :
    (node_part_type s n = LAB_SSD_NONE →
      ssd_get_part_type rcr th (some s) (some n) c = LAB_SSD_NONE) ∧
    (node_part_type s n ≠ LAB_SSD_NONE →
      get_resizing_type rcr th (some s) c ≠ LAB_SSD_NONE →
      ssd_get_part_type rcr th (some s) (some n) c =
        get_resizing_type rcr th (some s) c) ∧
    (node_part_type s n ≠ LAB_SSD_NONE →
      get_resizing_type rcr th (some s) c = LAB_SSD_NONE →
      ssd_get_part_type rcr th (some s) (some n) c = node_part_type s n) := by
  refine ⟨?_, ?_, ?_⟩
  · intro h1
    simp [ssd_get_part_type, hbuf, h1]
  · intro h1 h2
    simp [ssd_get_part_type, hbuf, h1, h2]
  · intro h1 h2
    simp [ssd_get_part_type, hbuf, h1, h2]

/-- C2 witness for the amended statement: a titlebar part stored for the
node is overridden by the geometric corner type when the cursor sits in
the top-left corner zone. -/
theorem ssd_get_part_type_override_amended_witness :
    ssd_get_part_type 8 0
      (some ⟨some ⟨⟨0, 0, 100, 100⟩, 100, true, false, true⟩,
        10, 11, 12, 13, [(42, LAB_SSD_PART_TITLEBAR)], [], [], []⟩)
      (some ⟨42, false, false, [10]⟩) (some ⟨-5, -5⟩) =
      get_resizing_type 8 0
        (some ⟨some ⟨⟨0, 0, 100, 100⟩, 100, true, false, true⟩,
          10, 11, 12, 13, [(42, LAB_SSD_PART_TITLEBAR)], [], [], []⟩)
        (some ⟨-5, -5⟩) :=
  (ssd_get_part_type_override_amended 8 0
    ⟨some ⟨⟨0, 0, 100, 100⟩, 100, true, false, true⟩,
      10, 11, 12, 13, [(42, LAB_SSD_PART_TITLEBAR)], [], [], []⟩
    ⟨42, false, false, [10]⟩ (some ⟨-5, -5⟩) rfl).2.1 (by decide) (by decide)

/-- C9: with the window switcher active and the destroyed view being the
current cycle selection, when the backward step lands back on the
destroyed view itself or finds no view, the whole session is
force-finished: the selection becomes none, the preview node and anchor
are cleared after restoration, and the input mode returns to
passthrough. -/
theorem osd_on_view_destroy_force_finish_spec (srv : OsdServer) (v : Nat)
    (v_scene : Option Nat) (prev_of : Nat → Option Nat)
    (hmode : srv.input_mode = LAB_INPUT_STATE_WINDOW_SWITCHER)
    (hsel : srv.osd_state.cycle_view = some v)
    (hstep : get_next_cycle_view srv.views srv.criteria (some v)
        LAB_CYCLE_DIR_BACKWARD = some v ∨
      get_next_cycle_view srv.views srv.criteria (some v)
        LAB_CYCLE_DIR_BACKWARD = none) :
    (osd_on_view_destroy srv v v_scene prev_of).osd_state.cycle_view = none ∧
    (osd_on_view_destroy srv v v_scene prev_of).osd_state.preview_node =
      none ∧
    (osd_on_view_destroy srv v v_scene prev_of).osd_state.preview_anchor =
      none ∧
    (osd_on_view_destroy srv v v_scene prev_of).input_mode =
      LAB_INPUT_STATE_PASSTHROUGH := by
  obtain ⟨m, vs, crit, st⟩ := srv
  simp only at hmode hsel hstep
  subst hmode
  cases v_scene <;>
    simp [osd_on_view_destroy, hsel, hstep, osd_finish, restore_preview_node]

/-- C9 witness: destroying the selected window of a single-window stack
force-finishes the session. -/
theorem osd_on_view_destroy_force_finish_spec_witness :
    (osd_on_view_destroy ⟨LAB_INPUT_STATE_WINDOW_SWITCHER, [7], fun _ => true,
        ⟨some 7, some 5, some 6, some 4, true, true⟩⟩ 7 (some 9)
      (fun _ => none)).osd_state.cycle_view = none ∧
    (osd_on_view_destroy ⟨LAB_INPUT_STATE_WINDOW_SWITCHER, [7], fun _ => true,
        ⟨some 7, some 5, some 6, some 4, true, true⟩⟩ 7 (some 9)
      (fun _ => none)).osd_state.preview_node = none ∧
    (osd_on_view_destroy ⟨LAB_INPUT_STATE_WINDOW_SWITCHER, [7], fun _ => true,
        ⟨some 7, some 5, some 6, some 4, true, true⟩⟩ 7 (some 9)
      (fun _ => none)).osd_state.preview_anchor = none ∧
    (osd_on_view_destroy ⟨LAB_INPUT_STATE_WINDOW_SWITCHER, [7], fun _ => true,
        ⟨some 7, some 5, some 6, some 4, true, true⟩⟩ 7 (some 9)
      (fun _ => none)).input_mode = LAB_INPUT_STATE_PASSTHROUGH :=
  osd_on_view_destroy_force_finish_spec
    ⟨LAB_INPUT_STATE_WINDOW_SWITCHER, [7], fun _ => true,
      ⟨some 7, some 5, some 6, some 4, true, true⟩⟩ 7 (some 9) (fun _ => none)
    rfl rfl (Or.inl rfl)
